import Mathlib

/-!
Verification of the execution/retry orchestration and reporting-lifecycle
bookkeeping of the PlaywrightWebProject end-to-end test suite.

The TypeScript sources are shallowly embedded: step functions (async
thunks that may resolve or reject) become `Except JsError α` values,
JavaScript exceptions become `Except.error`, mutation of the shared
test-status record becomes explicit state passing, and the file system
visible to the report-folder manager becomes a list of directory names.
-/

/-- A JavaScript `Error` value, reduced to the only field the embedded
code reads: its `message`. -/
structure JsError where
  message : String
deriving Repr, DecidableEq

/-- The test-status record created by
`TestExecutionHelper.createTestStatus` (src/utils/TestExecutionHelper.ts,
lines 120-126): `{ success: false, failureReason: '', currentStep: '' }`. -/
structure TestStatus where
  success : Bool
  failureReason : String
  currentStep : String
deriving Repr, DecidableEq

/-- `TestExecutionHelper.createTestStatus` (TestExecutionHelper.ts 120-126). -/
def createTestStatus : TestStatus :=
  { success := false, failureReason := "", currentStep := "" }

/-- The second argument of `executeStep` / `executeOptionalStep`
(TestExecutionHelper.ts 134, 173): either an explicit test-status record
or (global-state form) the step function itself. -/
inductive StatusOrFn (α : Type) where
  | status (ts : TestStatus)
  | fn (f : Except JsError α)

/-- The failure-reason string built at TestExecutionHelper.ts line 161:
`Failed at step '<stepName>': <error.message>` (the apostrophes are
written with the `\x27` escape). -/
def failMsg (stepName msg : String) : String :=
  "Failed at step \x27" ++ stepName ++ "\x27: " ++ msg

/-- The validation error thrown at TestExecutionHelper.ts line 151 when
the explicit-record form of `executeStep` is used without a step
function. -/
def stepFnRequiredMsg : String :=
  "stepFunction is required when providing testStatus. Usage: executeStep(stepName, testStatus, stepFunction)"

/-- The validation error thrown at TestExecutionHelper.ts line 191 for
`executeOptionalStep`. -/
def optionalStepFnRequiredMsg : String :=
  "stepFunction is required when providing testStatus. Usage: executeOptionalStep(stepName, testStatus, stepFunction)"

/-- The shared tail of `executeStep` (TestExecutionHelper.ts 157-164)
once the target record and step function are resolved: record the step
name in `currentStep`, run the step; on success return its value, on
failure store the annotated reason in `failureReason` and re-throw the
same error.  Returns the updated target record together with the
outcome. -/
def runStep {α : Type} (stepName : String) (ts : TestStatus)
    (stepFn : Except JsError α) : TestStatus × Except JsError α :=
  let ts1 := { ts with currentStep := stepName }
  match stepFn with
  | Except.ok v => (ts1, Except.ok v)
  | Except.error e =>
      ({ ts1 with failureReason := failMsg stepName e.message }, Except.error e)

/-- `TestExecutionHelper.executeStep` (TestExecutionHelper.ts 132-165).
The dual call shape is resolved first: a function as second argument
selects the global record `globalStatus`; an explicit record requires
`stepFunction` to be present, otherwise the validation error is thrown
before the record is touched.  The returned record is the state of the
targeted record after the call. -/
def executeStep {α : Type} (stepName : String) (arg : StatusOrFn α)
    (stepFunction : Option (Except JsError α)) (globalStatus : TestStatus) :
    TestStatus × Except JsError α :=
  match arg with
  | StatusOrFn.fn f => runStep stepName globalStatus f
  | StatusOrFn.status ts =>
      match stepFunction with
      | none => (ts, Except.error ⟨stepFnRequiredMsg⟩)
      | some f => runStep stepName ts f

/-- The shared tail of `executeOptionalStep`
(TestExecutionHelper.ts 197-212): record the step name in `currentStep`,
run the step; on success return its value, on failure swallow the error
and return `defaultValue` (`none` models `undefined`).  `failureReason`
and `success` are never written. -/
def runOptionalStep {α : Type} (stepName : String) (ts : TestStatus)
    (stepFn : Except JsError α) (defaultValue : Option α) :
    TestStatus × Except JsError (Option α) :=
  let ts1 := { ts with currentStep := stepName }
  match stepFn with
  | Except.ok v => (ts1, Except.ok (some v))
  | Except.error _ => (ts1, Except.ok defaultValue)

/-- `TestExecutionHelper.executeOptionalStep`
(TestExecutionHelper.ts 171-212), with the same dual-call-shape
resolution as `executeStep`. -/
def executeOptionalStep {α : Type} (stepName : String) (arg : StatusOrFn α)
    (stepFunction : Option (Except JsError α)) (defaultValue : Option α)
    (globalStatus : TestStatus) : TestStatus × Except JsError (Option α) :=
  match arg with
  | StatusOrFn.fn f => runOptionalStep stepName globalStatus f defaultValue
  | StatusOrFn.status ts =>
      match stepFunction with
      | none => (ts, Except.error ⟨optionalStepFnRequiredMsg⟩)
      | some f => runOptionalStep stepName ts f defaultValue

/-- The test summary object built by `TestExecutionHelper.finalizeTest`
(TestExecutionHelper.ts 67-79). -/
structure TestSummary where
  name : String
  status : String
  failureReason : String
  duration : String
  durationMs : Nat
  currentStep : String
  timestamp : String
  environment : String
  platform : String
  browser : String
  testData : String
deriving Repr, DecidableEq

/-- Models `(testDuration / 1000).toFixed(1)` (TestExecutionHelper.ts 64)
for a non-negative integer millisecond count: seconds with one decimal,
rounded half up (the binary-float corner cases of `toFixed` are out of
scope; no claim depends on this string). -/
def toFixed1 (ms : Nat) : String :=
  let tenths := (ms + 50) / 100
  toString (tenths / 10) ++ "." ++ toString (tenths % 10)

/-- `TestExecutionHelper.finalizeTest` (TestExecutionHelper.ts 42-115),
restricted to its state and data effects: resolving the optional
record/start-time arguments against the global state (the `||` fallback
of lines 52-53, under which a passed start time of `0` is falsy), the
success-marking block of lines 55-59, and the summary object of lines
67-79.  Ambient reads (`Date.now()`, `new Date().toISOString()`,
`config.getEnvironment()`, `process.env.USE_LAMBDATEST`,
`testInfo.title`, `testInfo.project.name`) are parameters; the
screenshot/attachment/console side effects have no bearing on the
returned record or summary. -/
def finalizeTest (title : String) (testStatusArg : Option TestStatus)
    (startTimeArg : Option Nat) (testData : String)
    (globalStatus : TestStatus) (globalStartTime : Nat) (endTime : Nat)
    (isoNow : String) (environment : String) (useLambdaTest : Bool)
    (browser : String) : TestStatus × TestSummary :=
  let finalTestStatus := testStatusArg.getD globalStatus
  let finalStartTime :=
    match startTimeArg with
    | some t => if t = 0 then globalStartTime else t
    | none => globalStartTime
  let ts1 :=
    if finalTestStatus.failureReason = "" && !finalTestStatus.success then
      { finalTestStatus with
          success := true, currentStep := "Test completed successfully" }
    else finalTestStatus
  let testDuration := endTime - finalStartTime
  let durationSeconds := toFixed1 testDuration
  (ts1,
   { name := title
     status := if ts1.success then "PASSED" else "FAILED"
     failureReason := ts1.failureReason
     duration := durationSeconds ++ " seconds"
     durationMs := testDuration
     currentStep := ts1.currentStep
     timestamp := isoNow
     environment := environment
     platform := if useLambdaTest then "LambdaTest" else "Local"
     browser := browser
     testData := testData })

/-- Observable events of a retry loop: the underlying action being
invoked for attempt `i` (0-based), and a fixed `page.waitForTimeout`
backoff of `ms` milliseconds. -/
inductive RetryEvent where
  | attempt (i : Nat)
  | wait (ms : Nat)
deriving Repr, DecidableEq

/-- The error message thrown by `TestUtils.waitForElementWithRetry`
after the final failed attempt (TestUtils.ts 85):
`Element <selector> not found after <maxRetries> retries`. -/
def waitRetryMsg (selector : String) (maxRetries : Nat) : String :=
  "Element " ++ selector ++ " not found after " ++ toString maxRetries ++ " retries"

/-- The `while (retryCount < maxRetries)` loop of
`TestUtils.waitForElementWithRetry` (TestUtils.ts 74-90), with the
underlying `page.waitForSelector` call abstracted as `action i`, the
outcome of attempt `i`.  On failure the counter is incremented; if it
then equals `maxRetries` a fresh error carrying `waitRetryMsg` is
thrown, otherwise the loop waits 2000 ms and retries.  Returns the event
trace and the outcome. -/
def waitRetryGo (selector : String) (action : Nat → Except JsError Unit)
    (maxRetries : Nat) (retryCount : Nat) :
    List RetryEvent × Except JsError Unit :=
  if _h : retryCount < maxRetries then
    match action retryCount with
    | Except.ok _ => ([RetryEvent.attempt retryCount], Except.ok ())
    | Except.error _ =>
        if retryCount + 1 = maxRetries then
          ([RetryEvent.attempt retryCount],
           Except.error ⟨waitRetryMsg selector maxRetries⟩)
        else
          let rest := waitRetryGo selector action maxRetries (retryCount + 1)
          (RetryEvent.attempt retryCount :: RetryEvent.wait 2000 :: rest.1,
           rest.2)
  else ([], Except.ok ())
termination_by maxRetries - retryCount
decreasing_by omega

/-- `TestUtils.waitForElementWithRetry` (TestUtils.ts 68-91), entered
with `retryCount = 0`; the default `maxRetries` is 3. -/
def waitForElementWithRetry (selector : String) (maxRetries : Nat)
    (action : Nat → Except JsError Unit) :
    List RetryEvent × Except JsError Unit :=
  waitRetryGo selector action maxRetries 0

/-- The `while (attempts < maxAttempts)` retry loop inside the
`Perform search` step of the test spec (src/tests/hotel_e2e.spec.ts
94-113), with `homePage.searchHotels()` abstracted as `action i`.  On
failure the counter is incremented; if it then reaches `maxAttempts` the
SAME caught error is re-thrown, otherwise the loop waits 2000 ms and
retries. -/
def searchRetryGo (action : Nat → Except JsError Unit) (maxAttempts : Nat)
    (attempts : Nat) : List RetryEvent × Except JsError Unit :=
  if _h : attempts < maxAttempts then
    match action attempts with
    | Except.ok _ => ([RetryEvent.attempt attempts], Except.ok ())
    | Except.error e =>
        if attempts + 1 ≥ maxAttempts then
          ([RetryEvent.attempt attempts], Except.error e)
        else
          let rest := searchRetryGo action maxAttempts (attempts + 1)
          (RetryEvent.attempt attempts :: RetryEvent.wait 2000 :: rest.1,
           rest.2)
  else ([], Except.ok ())
termination_by maxAttempts - attempts
decreasing_by omega

/-- The `Perform search` retry loop entered with `attempts = 0` and
`maxAttempts = 3` (hotel_e2e.spec.ts 94-95). -/
def performSearchWithRetry (action : Nat → Except JsError Unit) :
    List RetryEvent × Except JsError Unit :=
  searchRetryGo action 3 0

/-- JavaScript `a || b` on an optional environment-variable/string
value: the empty string and an absent value are falsy. -/
def envOr (v : Option String) (d : String) : String :=
  match v with
  | some s => if s = "" then d else s
  | none => d

/-- JavaScript truthiness of an optional string value. -/
def isTruthy : Option String → Bool
  | some s => s ≠ ""
  | none => false

/-- The worker-visible environment variables read by `ReporterManager`
(src/utils/reporter/ReporterManager.ts), plus the worker's current
working directory. -/
structure ReporterEnv where
  playwrightRunTimestamp : Option String
  playwrightOutputDir : Option String
  playwrightProjectRoot : Option String
  testEnv : Option String
  useLambdaTest : Option String
  cwd : String
deriving Repr, DecidableEq

/-- The components of `new Date()` that
`ReporterManager.generateTimestamp` reads (`getMonth` is 0-based, as in
JavaScript). -/
structure JsDate where
  fullYear : Nat
  month : Nat
  date : Nat
  hours : Nat
  minutes : Nat
deriving Repr, DecidableEq

/-- Worker-local mutable state of `ReporterManager`: the static
`runTimestamp` cache (ReporterManager.ts 39) and the worker's clock at
the moment `generateTimestamp` would read it. -/
structure ReporterState where
  runTimestamp : Option String
  now : JsDate
deriving Repr, DecidableEq

/-- `String.prototype.padStart(2, '0')`. -/
def padStart2 (s : String) : String :=
  if s.length ≥ 2 then s
  else if s.length = 1 then "0" ++ s
  else "00"

/-- `ReporterManager.generateTimestamp` (ReporterManager.ts 74-83):
`YYYY-MM-DD_HH-MM` built from the clock parts, month 1-based and all
parts except the year padded to two digits. -/
def generateTimestamp (now : JsDate) : String :=
  toString now.fullYear ++ "-" ++ padStart2 (toString (now.month + 1)) ++ "-"
    ++ padStart2 (toString now.date) ++ "_" ++ padStart2 (toString now.hours)
    ++ "-" ++ padStart2 (toString now.minutes)

/-- JavaScript `s.startsWith(pre)`, modelled on the character list (the
same relation as `String.startsWith`, in a form the kernel evaluates). -/
def jsStartsWith (s pre : String) : Bool :=
  pre.data.isPrefixOf s.data

/-- `path.isAbsolute`, modelled for POSIX paths. -/
def pathIsAbsolute (p : String) : Bool :=
  jsStartsWith p "/"

/-- `path.resolve(cwd, p)`, modelled for POSIX paths without `..`
normalization (no claim depends on normalization). -/
def pathResolve (cwd p : String) : String :=
  if pathIsAbsolute p then p else cwd ++ "/" ++ p

/-- `path.join(a, b)`, modelled for POSIX paths. -/
def pathJoin (a b : String) : String :=
  a ++ "/" ++ b

/-- `ReporterManager.getOutputBaseDir` (ReporterManager.ts 45-49):
`PLAYWRIGHT_OUTPUT_DIR || PLAYWRIGHT_PROJECT_ROOT || process.cwd()`,
made absolute against the current working directory. -/
def getOutputBaseDir (env : ReporterEnv) : String :=
  let baseDir := envOr env.playwrightOutputDir
    (envOr env.playwrightProjectRoot env.cwd)
  if pathIsAbsolute baseDir then baseDir else pathResolve env.cwd baseDir

/-- `ReporterManager.getRunTimestamp` (ReporterManager.ts 90-104): a
truthy `PLAYWRIGHT_RUN_TIMESTAMP` environment variable wins; otherwise
the static cache is used, generating a fresh timestamp from the local
clock (and publishing it to the environment) when the cache is empty.
Returns the timestamp with the updated state and environment. -/
def getRunTimestamp (env : ReporterEnv) (st : ReporterState) :
    String × ReporterState × ReporterEnv :=
  if isTruthy env.playwrightRunTimestamp then
    (env.playwrightRunTimestamp.getD "", st, env)
  else
    match st.runTimestamp with
    | some t => (t, st, env)
    | none =>
        let t := generateTimestamp st.now
        (t, { st with runTimestamp := some t },
         { env with playwrightRunTimestamp := some t })

/-- The folder-name line of `ReporterManager.generateCurrentReportFolder`
(ReporterManager.ts 118):
`<baseFolder>-<environment>-<platform>-<timestamp>`. -/
def reportFolderName (baseFolder environment platform timestamp : String) :
    String :=
  baseFolder ++ "-" ++ environment ++ "-" ++ platform ++ "-" ++ timestamp

/-- `ReporterManager.generateCurrentReportFolder`
(ReporterManager.ts 111-120): environment from `TEST_ENV || 'prod'`,
platform `lambdatest`/`local` from `USE_LAMBDATEST === 'true'`
(PLATFORM_IDENTIFIERS in LambdaTestConstants.ts), the shared run
timestamp, joined under the output base directory. -/
def generateCurrentReportFolder (baseFolder : String) (env : ReporterEnv)
    (st : ReporterState) : String × ReporterState × ReporterEnv :=
  let environment := envOr env.testEnv "prod"
  let useLT := env.useLambdaTest == some "true"
  let platform := if useLT then "lambdatest" else "local"
  let r := getRunTimestamp env st
  let outputBaseDir := getOutputBaseDir env
  (pathJoin outputBaseDir (reportFolderName baseFolder environment platform r.1),
   r.2.1, r.2.2)

/-- The deletion filter of `ReporterManager.cleanupOldReports`
(ReporterManager.ts 159-173): an entry is deleted when its name starts
with `report-` and differs from the current run's folder name. -/
def shouldDeleteDir (currentName d : String) : Bool :=
  jsStartsWith d "report-" && d != currentName

/-- `ReporterManager.cleanupOldReports` (ReporterManager.ts 145-196)
acting on the listing `dirs` of the (existing) output base directory,
whose entries are taken to be directories: every entry selected by the
deletion filter is removed.  `currentName` is the basename of
`generateCurrentReportFolder()` recomputed inside the function
(ReporterManager.ts 148-149). -/
def cleanupOldReports (currentName : String) (dirs : List String) :
    List String :=
  dirs.filter (fun d => !(shouldDeleteDir currentName d))

/-- `ReporterManager.ensureDirectoryExists` (ReporterManager.ts 126-139)
on the same listing: first `cleanupOldReports` runs, then the requested
directory (named `dirName` inside the base directory) is created when
absent. -/
def ensureDirectoryExists (currentName dirName : String)
    (dirs : List String) : List String :=
  let dirs1 := cleanupOldReports currentName dirs
  if dirName ∈ dirs1 then dirs1 else dirName :: dirs1

/-- The parsed configuration file read by `ConfigManager`
(src/utils/ConfigManager.ts 18-19): the environment map (values reduced
to a representative payload string) and the optional
`defaultEnvironment` key. -/
structure Config where
  environments : List (String × String)
  defaultEnvironment : Option String
deriving Repr, DecidableEq

/-- The lookup `config.environments[name]`. -/
def lookupEnvCfg (c : Config) (name : String) : Option String :=
  c.environments.lookup name

/-- The `ConfigManager` constructor (ConfigManager.ts 15-36): on a load
error the catch block re-throws; otherwise `currentEnv` is
`TEST_ENV || defaultEnvironment || 'prod'`, demoted to the raw
`defaultEnvironment` value (possibly absent, hence `Option String`) with
a console warning when the chosen name is missing from the environment
map.  The validation path never throws. -/
def configManagerInit (testEnv : Option String)
    (loaded : Except JsError Config) : Except JsError (Option String) :=
  match loaded with
  | Except.error e =>
      Except.error ⟨"Failed to load configuration: " ++ e.message⟩
  | Except.ok c =>
      let env0 := envOr testEnv (envOr c.defaultEnvironment "prod")
      if (lookupEnvCfg c env0).isSome then Except.ok (some env0)
      else Except.ok c.defaultEnvironment

/-- `ConfigManager.setEnvironment` (ConfigManager.ts 59-65): throws
`Environment '<env>' not found in config` on an unknown name, otherwise
switches to it. -/
def setEnvironment (c : Config) (env : String) : Except JsError String :=
  if (lookupEnvCfg c env).isSome then Except.ok env
  else Except.error ⟨"Environment \x27" ++ env ++ "\x27 not found in config"⟩


/-- C1: for every step name, status record, and step function passed in
the explicit-record form, `executeStep` sets the record's `currentStep`
to the step name; when the step function returns a value, that value is
returned and `failureReason` is unchanged; when it throws an error with
message m, `failureReason` becomes exactly
`Failed at step '<name>': <m>` and the same error is re-thrown. -/
theorem executeStep_explicit_spec {α : Type} (stepName : String)
    (ts g : TestStatus) (v : α) (e : JsError) :
    (executeStep stepName (StatusOrFn.status ts) (some (Except.ok v)) g).1.currentStep = stepName ∧
    (executeStep stepName (StatusOrFn.status ts) (some (Except.ok v)) g).2 = Except.ok v ∧
    (executeStep stepName (StatusOrFn.status ts) (some (Except.ok v)) g).1.failureReason = ts.failureReason ∧
    (executeStep stepName (StatusOrFn.status ts) (some (Except.error e : Except JsError α)) g).1.currentStep = stepName ∧
    (executeStep stepName (StatusOrFn.status ts) (some (Except.error e : Except JsError α)) g).1.failureReason =
      "Failed at step \x27" ++ stepName ++ "\x27: " ++ e.message ∧
    (executeStep stepName (StatusOrFn.status ts) (some (Except.error e : Except JsError α)) g).2 = Except.error e := by
  refine ⟨rfl, rfl, rfl, rfl, ?_, rfl⟩
  simp [executeStep, runStep, failMsg]

/-- C2 counterexample: an optional step that throws does NOT leave the
status record unchanged — starting from the freshly created record
(whose `currentStep` is the empty string), a failing optional step named
`Dismiss popup` leaves the record with `currentStep = "Dismiss popup"`. -/
theorem executeOptionalStep_unchanged_counterexample :
    (executeOptionalStep "Dismiss popup" (StatusOrFn.status createTestStatus)
        (some (Except.error ⟨"boom"⟩)) (none : Option Nat) createTestStatus).1
      ≠ createTestStatus ∧
    (executeOptionalStep "Dismiss popup" (StatusOrFn.status createTestStatus)
        (some (Except.error ⟨"boom"⟩)) (none : Option Nat) createTestStatus).1.currentStep
      = "Dismiss popup" := by
  constructor
  · decide
  · rfl

/-- C2 as amended: for every status record and every step function that
throws, `executeOptionalStep` lets no exception escape, returns the
supplied default value (`none` models `undefined`), and leaves `success`
and `failureReason` unchanged; `currentStep`, however, is set to the
step name. -/
theorem executeOptionalStep_failure_spec {α : Type} (stepName : String)
    (ts g : TestStatus) (dv : Option α) (e : JsError) :
    (executeOptionalStep stepName (StatusOrFn.status ts) (some (Except.error e)) dv g).1.success = ts.success ∧
    (executeOptionalStep stepName (StatusOrFn.status ts) (some (Except.error e)) dv g).1.failureReason = ts.failureReason ∧
    (executeOptionalStep stepName (StatusOrFn.status ts) (some (Except.error e)) dv g).1.currentStep = stepName ∧
    (executeOptionalStep stepName (StatusOrFn.status ts) (some (Except.error e)) dv g).2 = Except.ok dv :=
  ⟨rfl, rfl, rfl, rfl⟩

/-- C3: once `failureReason` is non-empty, no operation sets `success`
to true: `finalizeTest` leaves `success` unchanged on such a record, and
`executeStep` / `executeOptionalStep` (in either call form, with any
step-function argument) never write `success` at all. -/
theorem statusSuccessInvariant {α : Type} (ts g : TestStatus)
    (stepName : String) (sf : Option (Except JsError α))
    (f : Except JsError α) (dv : Option α)
    (title testData isoNow environment browser : String)
    (startTimeArg : Option Nat) (gStart endTime : Nat) (useLT : Bool)
    (h : ts.failureReason ≠ "") :
    (finalizeTest title (some ts) startTimeArg testData g gStart endTime
        isoNow environment useLT browser).1.success = ts.success ∧
    (executeStep stepName (StatusOrFn.status ts) sf g).1.success = ts.success ∧
    (executeStep stepName (StatusOrFn.fn f) sf ts).1.success = ts.success ∧
    (executeOptionalStep stepName (StatusOrFn.status ts) sf dv g).1.success = ts.success ∧
    (executeOptionalStep stepName (StatusOrFn.fn f) sf dv ts).1.success = ts.success := by
  refine ⟨?_, ?_, ?_, ?_, ?_⟩
  · simp [finalizeTest, h]
  · cases sf with
    | none => rfl
    | some f2 => cases f2 <;> rfl
  · cases f <;> rfl
  · cases sf with
    | none => rfl
    | some f2 => cases f2 <;> rfl
  · cases f <;> rfl

/-- C3 witness: on a record whose `failureReason` is `"boom"` and whose
`success` is false, `finalizeTest` leaves `success` false. -/
theorem statusSuccessInvariant_witness :
    (finalizeTest "t" (some ⟨false, "boom", "s"⟩) (some 5) "td"
        createTestStatus 1 7 "now" "prod" false "chromium").1.success = false :=
  (statusSuccessInvariant (α := Nat) ⟨false, "boom", "s"⟩ createTestStatus
    "step" none (Except.ok 0) none "t" "td" "now" "prod" "chromium"
    (some 5) 1 7 false (by decide)).1

/-- C4: when `failureReason` is empty and `success` is false at entry,
`finalizeTest` sets `success` to true and `currentStep` to the canonical
closing label, and the summary's status is `PASSED`; otherwise the
summary's status is `PASSED` exactly when the record's `success` was
true. -/
theorem finalizeTest_status_spec (ts : TestStatus)
    (title testData isoNow environment browser : String)
    (startTimeArg : Option Nat) (g : TestStatus) (gStart endTime : Nat)
    (useLT : Bool) :
    (ts.failureReason = "" → ts.success = false →
      (finalizeTest title (some ts) startTimeArg testData g gStart endTime
          isoNow environment useLT browser).1.success = true ∧
      (finalizeTest title (some ts) startTimeArg testData g gStart endTime
          isoNow environment useLT browser).1.currentStep = "Test completed successfully" ∧
      (finalizeTest title (some ts) startTimeArg testData g gStart endTime
          isoNow environment useLT browser).2.status = "PASSED") ∧
    (¬(ts.failureReason = "" ∧ ts.success = false) →
      ((finalizeTest title (some ts) startTimeArg testData g gStart endTime
          isoNow environment useLT browser).2.status = "PASSED" ↔ ts.success = true)) := by
  constructor
  · intro h1 h2
    refine ⟨?_, ?_, ?_⟩ <;> simp [finalizeTest, h1, h2]
  · intro h
    by_cases hfr : ts.failureReason = ""
    · have hsucc : ts.success = true := by
        cases hs : ts.success with
        | false => exact absurd ⟨hfr, hs⟩ h
        | true => rfl
      simp [finalizeTest, hfr, hsucc]
    · cases hs : ts.success <;> simp [finalizeTest, hfr, hs]

/-- C4 witness: finalizing a fresh record (empty failure reason, success
false) yields a summary with status `PASSED` and the canonical closing
step label. -/
theorem finalizeTest_status_witness :
    (finalizeTest "t" (some createTestStatus) none "td" createTestStatus 0
        1000 "now" "prod" false "chromium").2.status = "PASSED" ∧
    (finalizeTest "t" (some createTestStatus) none "td" createTestStatus 0
        1000 "now" "prod" false "chromium").1.currentStep = "Test completed successfully" := by
  have h := (finalizeTest_status_spec createTestStatus "t" "td" "now"
    "prod" "chromium" none createTestStatus 0 1000 false).1 rfl rfl
  exact ⟨h.2.2, h.2.1⟩

/-- C5: when the record's `success` is already true at entry,
`finalizeTest` leaves `currentStep` unchanged (in particular it does not
overwrite it with the canonical closing label), and finalizing the
resulting record again produces the same `currentStep`. -/
theorem finalizeTest_idempotent_currentStep (ts : TestStatus)
    (title testData isoNow environment browser : String)
    (startTimeArg : Option Nat) (g : TestStatus) (gStart endTime : Nat)
    (useLT : Bool) (h : ts.success = true) :
    (finalizeTest title (some ts) startTimeArg testData g gStart endTime
        isoNow environment useLT browser).1.currentStep = ts.currentStep ∧
    (finalizeTest title
        (some (finalizeTest title (some ts) startTimeArg testData g gStart
          endTime isoNow environment useLT browser).1)
        startTimeArg testData g gStart endTime isoNow environment useLT
        browser).1.currentStep =
      (finalizeTest title (some ts) startTimeArg testData g gStart endTime
        isoNow environment useLT browser).1.currentStep := by
  have h1 : (finalizeTest title (some ts) startTimeArg testData g gStart
      endTime isoNow environment useLT browser).1 = ts := by
    simp [finalizeTest, h]
  simp [h1]

/-- C5 witness: a record already marked successful with
`currentStep = "step X"` keeps `currentStep = "step X"` through one and
through two finalizations. -/
theorem finalizeTest_idempotent_witness :
    (finalizeTest "t" (some ⟨true, "", "step X"⟩) none "td"
        createTestStatus 0 1000 "now" "prod" false "chromium").1.currentStep = "step X" :=
  (finalizeTest_idempotent_currentStep ⟨true, "", "step X"⟩ "t" "td" "now"
    "prod" "chromium" none createTestStatus 0 1000 false rfl).1

/-- An underlying action that throws the same error on every attempt,
used to exercise the retry loops at a concrete input. -/
def boomAction : Nat → Except JsError Unit :=
  fun _ => Except.error ⟨"boom"⟩

/-- C6 counterexample: when the underlying action of
`waitForElementWithRetry` fails all 3 attempts, each time with the error
`boom`, the error propagated to the caller is the freshly constructed
`Element sel not found after 3 retries` — not the last error raised by
the underlying action. -/
theorem waitRetry_lastError_counterexample :
    (waitForElementWithRetry "sel" 3 boomAction).2 =
      Except.error ⟨"Element sel not found after 3 retries"⟩ ∧
    (⟨"Element sel not found after 3 retries"⟩ : JsError) ≠ ⟨"boom"⟩ := by
  constructor
  · simp [waitForElementWithRetry, waitRetryGo, boomAction, waitRetryMsg]
    decide
  · decide

/-- C6 as amended: in a 3-attempt retry loop, every failed attempt that
is followed by another attempt is separated from it by a fixed 2000 ms
wait; after all 3 attempts fail, the `Perform search` loop propagates
the last error raised by the underlying action, whereas
`waitForElementWithRetry` throws a new error carrying the message
`Element <selector> not found after 3 retries` instead of the last
underlying error. -/
theorem retryLoops_spec (sel : String) (action : Nat → Except JsError Unit)
    (e0 e1 e2 : JsError) (h0 : action 0 = Except.error e0)
    (h1 : action 1 = Except.error e1) (h2 : action 2 = Except.error e2) :
    performSearchWithRetry action =
      ([RetryEvent.attempt 0, RetryEvent.wait 2000, RetryEvent.attempt 1,
        RetryEvent.wait 2000, RetryEvent.attempt 2], Except.error e2) ∧
    waitForElementWithRetry sel 3 action =
      ([RetryEvent.attempt 0, RetryEvent.wait 2000, RetryEvent.attempt 1,
        RetryEvent.wait 2000, RetryEvent.attempt 2],
       Except.error ⟨waitRetryMsg sel 3⟩) := by
  constructor
  · simp [performSearchWithRetry, searchRetryGo, h0, h1, h2]
  · simp [waitForElementWithRetry, waitRetryGo, h0, h1, h2]

/-- C6 witness: the amended retry property evaluated on the concrete
always-failing action. -/
theorem retryLoops_witness :
    performSearchWithRetry boomAction =
      ([RetryEvent.attempt 0, RetryEvent.wait 2000, RetryEvent.attempt 1,
        RetryEvent.wait 2000, RetryEvent.attempt 2],
       Except.error ⟨"boom"⟩) ∧
    waitForElementWithRetry "sel" 3 boomAction =
      ([RetryEvent.attempt 0, RetryEvent.wait 2000, RetryEvent.attempt 1,
        RetryEvent.wait 2000, RetryEvent.attempt 2],
       Except.error ⟨waitRetryMsg "sel" 3⟩) :=
  retryLoops_spec "sel" boomAction ⟨"boom"⟩ ⟨"boom"⟩ ⟨"boom"⟩ rfl rfl rfl

/-- C7: the explicit-record form of `executeStep` and
`executeOptionalStep` with no step function throws the descriptive
`stepFunction is required` error and returns the record unmutated. -/
theorem stepFnRequired_spec {α : Type} (stepName : String)
    (ts g : TestStatus) (dv : Option α) :
    executeStep stepName (StatusOrFn.status ts)
        (none : Option (Except JsError α)) g =
      (ts, Except.error ⟨stepFnRequiredMsg⟩) ∧
    executeOptionalStep stepName (StatusOrFn.status ts)
        (none : Option (Except JsError α)) dv g =
      (ts, Except.error ⟨optionalStepFnRequiredMsg⟩) :=
  ⟨rfl, rfl⟩

/-- C8: after `ensureDirectoryExists` for the current run's folder F
(named from the environment, platform tag and shared timestamp), F is
present in the output base directory and every pre-existing sibling
directory whose name starts with `report-` and differs from F is gone. -/
theorem ensureDirectoryExists_prunes (environment platform timestamp : String)
    (dirs : List String) (prev : String) (_hmem : prev ∈ dirs)
    (hpre : jsStartsWith prev "report-" = true)
    (hne : prev ≠ reportFolderName "report" environment platform timestamp) :
    reportFolderName "report" environment platform timestamp ∈
      ensureDirectoryExists
        (reportFolderName "report" environment platform timestamp)
        (reportFolderName "report" environment platform timestamp) dirs ∧
    prev ∉
      ensureDirectoryExists
        (reportFolderName "report" environment platform timestamp)
        (reportFolderName "report" environment platform timestamp) dirs := by
  have hdel : shouldDeleteDir
      (reportFolderName "report" environment platform timestamp) prev = true := by
    simp [shouldDeleteDir, hpre, hne]
  have hnotfilter : prev ∉ cleanupOldReports
      (reportFolderName "report" environment platform timestamp) dirs := by
    intro hin
    rcases List.mem_filter.mp hin with ⟨_, hp⟩
    rw [hdel] at hp
    simp at hp
  constructor
  · unfold ensureDirectoryExists
    by_cases hF : reportFolderName "report" environment platform timestamp ∈
        cleanupOldReports
          (reportFolderName "report" environment platform timestamp) dirs <;>
      simp [hF]
  · unfold ensureDirectoryExists
    by_cases hF : reportFolderName "report" environment platform timestamp ∈
        cleanupOldReports
          (reportFolderName "report" environment platform timestamp) dirs <;>
      simp [hF, hnotfilter, hne]

/-- C8 witness: with prior folders `report-old1` and `report-old2` on
disk, ensuring the current run folder
`report-prod-local-2025-01-01_00-00` leaves the current folder present
and `report-old1` deleted. -/
theorem ensureDirectoryExists_prunes_witness :
    reportFolderName "report" "prod" "local" "2025-01-01_00-00" ∈
      ensureDirectoryExists
        (reportFolderName "report" "prod" "local" "2025-01-01_00-00")
        (reportFolderName "report" "prod" "local" "2025-01-01_00-00")
        ["report-old1", "report-old2", "keep"] ∧
    "report-old1" ∉
      ensureDirectoryExists
        (reportFolderName "report" "prod" "local" "2025-01-01_00-00")
        (reportFolderName "report" "prod" "local" "2025-01-01_00-00")
        ["report-old1", "report-old2", "keep"] :=
  ensureDirectoryExists_prunes "prod" "local" "2025-01-01_00-00"
    ["report-old1", "report-old2", "keep"] "report-old1"
    (by decide) (by decide) (by decide)

/-- C9: two workers (arbitrary local clocks and static caches) that
observe the same run-timestamp environment variable, the same
environment selector, the same cloud-grid flag value, and the same
output base directory compute byte-identical report-folder paths. -/
theorem generateCurrentReportFolder_deterministic (env1 env2 : ReporterEnv)
    (st1 st2 : ReporterState) (t : String)
    (h1 : env1.playwrightRunTimestamp = some t)
    (h2 : env2.playwrightRunTimestamp = some t) (ht : t ≠ "")
    (henv : env1.testEnv = env2.testEnv)
    (hlt : env1.useLambdaTest = env2.useLambdaTest)
    (hbase : getOutputBaseDir env1 = getOutputBaseDir env2) :
    (generateCurrentReportFolder "report" env1 st1).1 =
      (generateCurrentReportFolder "report" env2 st2).1 := by
  unfold generateCurrentReportFolder getRunTimestamp
  rw [h1, h2, henv, hlt, hbase]
  simp [isTruthy, ht]

/-- C9 witness: two workers with different working directories, clocks
and caches, sharing `PLAYWRIGHT_RUN_TIMESTAMP = 2025-01-01_00-00`, the
same `TEST_ENV`, the same `USE_LAMBDATEST`, and the same absolute
`PLAYWRIGHT_OUTPUT_DIR`, compute the same report-folder path. -/
theorem generateCurrentReportFolder_deterministic_witness :
    (generateCurrentReportFolder "report"
        ⟨some "2025-01-01_00-00", some "/out", none, some "qa", some "true", "/w1"⟩
        ⟨none, ⟨2025, 0, 1, 0, 0⟩⟩).1 =
      (generateCurrentReportFolder "report"
        ⟨some "2025-01-01_00-00", some "/out", none, some "qa", some "true", "/w2"⟩
        ⟨some "stale", ⟨2024, 5, 6, 7, 8⟩⟩).1 :=
  generateCurrentReportFolder_deterministic
    ⟨some "2025-01-01_00-00", some "/out", none, some "qa", some "true", "/w1"⟩
    ⟨some "2025-01-01_00-00", some "/out", none, some "qa", some "true", "/w2"⟩
    ⟨none, ⟨2025, 0, 1, 0, 0⟩⟩ ⟨some "stale", ⟨2024, 5, 6, 7, 8⟩⟩
    "2025-01-01_00-00" rfl rfl (by decide) rfl rfl (by decide)

/-- C10: when the environment selector names an environment absent from
the configuration's environment map, the `ConfigManager` constructor
does not throw and falls back to the configured default environment,
while the explicit `setEnvironment` operation throws
`Environment '<env>' not found in config` on that same name. -/
theorem configManager_fallback (c : Config) (e : String) (he : e ≠ "")
    (hmiss : lookupEnvCfg c e = none) :
    configManagerInit (some e) (Except.ok c) = Except.ok c.defaultEnvironment ∧
    setEnvironment c e =
      Except.error ⟨"Environment \x27" ++ e ++ "\x27 not found in config"⟩ := by
  constructor
  · simp [configManagerInit, envOr, he, hmiss]
  · simp [setEnvironment, hmiss]

/-- C10 witness: with an environment map containing only `prod` and
default environment `prod`, selector `qa` makes the constructor succeed
with the default, while `setEnvironment qa` throws. -/
theorem configManager_fallback_witness :
    configManagerInit (some "qa")
        (Except.ok ⟨[("prod", "https://example.com")], some "prod"⟩) =
      Except.ok (some "prod") ∧
    setEnvironment ⟨[("prod", "https://example.com")], some "prod"⟩ "qa" =
      Except.error ⟨"Environment \x27qa\x27 not found in config"⟩ :=
  configManager_fallback ⟨[("prod", "https://example.com")], some "prod"⟩
    "qa" (by decide) (by decide)
